import Mathlib

/-!
Verification of the go-sqlite3 driver's cursor/statement lifecycle protocol.

The driver (package `sqlite3`, file `part_000` being the authoritative
iteration) is a thin layer over the SQLite C engine.  The engine itself is an
external collaborator, so it is modelled here as an oracle: a `Statement`
carries, besides the driver-visible bookkeeping, the answers the engine will
give to successive `sqlite3_step` calls (`pending`), the current row readable
through `sqlite3_column_text` (`cur`), and the status codes the engine returns
for reset / clear_bindings / bind_text calls.  A `Connection` carries the
engine session's last-error slot (`sqlite3_errcode` / `sqlite3_errmsg`).

Every driver function additionally returns the list of engine calls it made
(`calls` / the trace), so that claims of the form "does not touch the engine"
are expressible.
-/

/-- SQLITE_OK. -/
def StatusOk : Int := 0
/-- SQLITE_ROW: `sqlite3_step` has a row ready. -/
def StatusRow : Int := 100
/-- SQLITE_DONE: `sqlite3_step` has finished executing. -/
def StatusDone : Int := 101

/-- One engine answer to a `sqlite3_step` call: a fresh row, completion, or an
error status `code` that also loads `msg` into the session's error slot. -/
inductive StepOut where
  | row (data : List String)
  | done
  | err (code : Int) (msg : String)
deriving Repr, DecidableEq

/-- The engine session state observable through a `Connection`'s handle:
the last-error slot read by `sqlite3_errcode` / `sqlite3_errmsg`.
(Extended result codes are enabled at open time, so `errcode` holds the
extended code.)  Mirrors `type Connection struct { handle *C.sqlite3 }`. -/
structure Connection where
  errcode : Int
  errmsg : String
deriving Repr, DecidableEq

/-- The engine state behind a `Statement` handle plus the oracle describing
the engine's future answers.  Mirrors `type Statement struct { handle; connection }`:
* `paramCount` — what `sqlite3_bind_parameter_count` reports;
* `ncols` — what `sqlite3_column_count` reports;
* `names` — what `wsq_column_name` reports per column;
* `cur` — the row currently readable through `wsq_column_text`;
* `pending` — the engine's answers to the coming `sqlite3_step` calls;
* `bindings` — parameters currently bound (slot, value);
* `wasReset` / `wasCleared` — whether the statement is in the reset /
  bindings-cleared condition (a fresh or reset statement has them true;
  binding or stepping puts the statement back in use);
* `bindRc` — status code `wsq_bind_text` returns for a given slot;
* `resetRc` / `clearRc` — status codes `sqlite3_reset` / `sqlite3_clear_bindings`
  return. -/
structure Statement where
  paramCount : Nat
  ncols : Int
  names : List String
  cur : List String
  pending : List StepOut
  bindings : List (Nat × String)
  wasReset : Bool
  wasCleared : Bool
  bindRc : Nat → Int
  resetRc : Int
  clearRc : Int

/-- `type Cursor struct { statement; connection; result bool }`. -/
structure Cursor where
  statement : Statement
  connection : Connection
  result : Bool

/-- `type ClassicResultSet struct { statement; connection; more bool }`. -/
structure ClassicResultSet where
  statement : Statement
  connection : Connection
  more : Bool

/-- The two error shapes of the driver: `DriverError` (usage errors raised
locally) and `SystemError` (engine errors with basic + extended codes and the
engine's message). -/
inductive DbError where
  | driver (msg : String)
  | system (basic : Int) (extended : Int) (message : String)
deriving Repr, DecidableEq

/-- Engine calls a driver operation can make, recorded as a trace. -/
inductive Call where
  | step
  | reset
  | clearBindings
  | bindParameterCount
  | bind (i : Nat) (v : String)
  | columnCount
  | columnText (i : Nat)
  | columnName (i : Nat)
deriving Repr, DecidableEq

/-! ### Engine capability set (oracle semantics) -/

/-- `sqlite3_bind_parameter_count`. -/
def sqlite3_bind_parameter_count (s : Statement) : Nat := s.paramCount

/-- `sqlite3_column_count`. -/
def sqlite3_column_count (s : Statement) : Int := s.ncols

/-- `wsq_column_text`: text of column `i` of the current row. -/
def wsq_column_text (s : Statement) (i : Nat) : String := s.cur.getD i ""

/-- `wsq_column_name`: name of column `i`. -/
def wsq_column_name (s : Statement) (i : Nat) : String := s.names.getD i ""

/-- `sqlite3_step`: consume the next oracle answer.  A step takes the
statement out of the reset/cleared condition.  On an error answer the
session's error slot is loaded with the extended code and message. -/
def sqlite3_step (s : Statement) (c : Connection) : Int × Statement × Connection :=
  match s.pending with
  | [] => (StatusDone, { s with wasReset := false, wasCleared := false }, c)
  | .row d :: rest =>
      (StatusRow, { s with pending := rest, cur := d, wasReset := false, wasCleared := false }, c)
  | .done :: rest =>
      (StatusDone, { s with pending := rest, wasReset := false, wasCleared := false }, c)
  | .err code msg :: rest =>
      (code, { s with pending := rest, wasReset := false, wasCleared := false },
       { c with errcode := code, errmsg := msg })

/-- `sqlite3_reset`. -/
def sqlite3_reset (s : Statement) : Int × Statement :=
  (s.resetRc, { s with wasReset := true, cur := [] })

/-- `sqlite3_clear_bindings`. -/
def sqlite3_clear_bindings (s : Statement) : Int × Statement :=
  (s.clearRc, { s with wasCleared := true, bindings := [] })

/-- `wsq_bind_text`: bind text `v` to slot `i` (SQLITE_TRANSIENT copy). -/
def wsq_bind_text (s : Statement) (i : Nat) (v : String) : Int × Statement :=
  let rc := s.bindRc i
  if rc = StatusOk then
    (rc, { s with bindings := s.bindings ++ [(i, v)], wasReset := false, wasCleared := false })
  else (rc, s)

/-! ### Error model -/

/-- `func (self *Connection) error() os.Error`: build a `SystemError` from the
session's error slot — `extended := sqlite3_errcode(handle)`,
`basic := extended & 0xff`, `message := sqlite3_errmsg(handle)`. -/
def Connection.error (self : Connection) : DbError :=
  .system (Int.land self.errcode 0xff) self.errcode self.errmsg

/-! ### Statement -/

/-- `func (self *Statement) clear() os.Error`: reset, then clear bindings;
the connection's error on the first non-OK status. -/
def Statement.clear (self : Statement) (conn : Connection) :
    Option DbError × Statement × List Call :=
  let (rc, s1) := sqlite3_reset self
  if rc = StatusOk then
    let (rc2, s2) := sqlite3_clear_bindings s1
    if rc2 = StatusOk then (none, s2, [.reset, .clearBindings])
    else (some (Connection.error conn), s2, [.reset, .clearBindings])
  else (some (Connection.error conn), s1, [.reset])

/-- A statement that has been reset, had its bindings cleared, and not been
used since: ready for a new execution. -/
def Statement.ready (s : Statement) : Prop :=
  s.wasReset = true ∧ s.wasCleared = true ∧ s.bindings = []

instance (s : Statement) : Decidable s.ready := by
  unfold Statement.ready; infer_instance

/-! ### Cursor fetch operations -/

/-- Result of `Cursor.FetchOne`: the Go `(data []interface{}, error os.Error)`
pair, plus the updated cursor and the engine-call trace. -/
structure FetchOneRes where
  data : Option (List String)
  error : Option DbError
  self : Cursor
  calls : List Call

/-- `func (self *Cursor) FetchOne() ([]interface{}, os.Error)`. -/
def Cursor.FetchOne (self : Cursor) : FetchOneRes :=
  if self.result = false then
    ⟨none, some (.driver "FetchOne: No results to fetch!"), self, []⟩
  else
    let nColumns := sqlite3_column_count self.statement
    if nColumns ≤ 0 then
      ⟨none, some (.driver "FetchOne: No columns in result!"), self, [.columnCount]⟩
    else
      let n := nColumns.toNat
      let data := (List.range n).map (fun i => wsq_column_text self.statement i)
      let (rc, st1, cn1) := sqlite3_step self.statement self.connection
      let error : Option DbError :=
        if rc ≠ StatusDone ∧ rc ≠ StatusRow then some (Connection.error cn1) else none
      if rc = StatusDone then
        let (_, st2, ctr) := Statement.clear st1 cn1
        ⟨some data, error, ⟨st2, cn1, false⟩,
          [.columnCount] ++ (List.range n).map Call.columnText ++ [.step] ++ ctr⟩
      else
        ⟨some data, error, ⟨st1, cn1, self.result⟩,
          [.columnCount] ++ (List.range n).map Call.columnText ++ [.step]⟩

/-- Result of `Cursor.FetchRow`: the Go `(data map[string]interface{}, error)`
pair (the map represented by its graph, in column order), plus the updated
cursor and the trace. -/
structure FetchRowRes where
  data : Option (List (String × String))
  error : Option DbError
  self : Cursor
  calls : List Call

/-- `func (self *Cursor) FetchRow() (map[string]interface{}, os.Error)`. -/
def Cursor.FetchRow (self : Cursor) : FetchRowRes :=
  if self.result = false then
    ⟨none, some (.driver "FetchRow: No results to fetch!"), self, []⟩
  else
    let nColumns := sqlite3_column_count self.statement
    if nColumns ≤ 0 then
      ⟨none, some (.driver "FetchRow: No columns in result!"), self, [.columnCount]⟩
    else
      let n := nColumns.toNat
      let data := (List.range n).map
        (fun i => (wsq_column_name self.statement i, wsq_column_text self.statement i))
      let readCalls := (List.range n).flatMap (fun i => [Call.columnText i, Call.columnName i])
      let (rc, st1, cn1) := sqlite3_step self.statement self.connection
      let error : Option DbError :=
        if rc ≠ StatusDone ∧ rc ≠ StatusRow then some (Connection.error cn1) else none
      if rc = StatusDone then
        let (_, st2, ctr) := Statement.clear st1 cn1
        ⟨some data, error, ⟨st2, cn1, false⟩, [.columnCount] ++ readCalls ++ [.step] ++ ctr⟩
      else
        ⟨some data, error, ⟨st1, cn1, self.result⟩, [.columnCount] ++ readCalls ++ [.step]⟩

/-- Result of `ClassicResultSet.Fetch`: the Go `Result{data, error}` plus the
updated result set and the trace. -/
structure ClassicFetchRes where
  data : Option (List String)
  error : Option DbError
  self : ClassicResultSet
  calls : List Call

/-- `func (self *ClassicResultSet) Fetch() db.Result`. -/
def ClassicResultSet.Fetch (self : ClassicResultSet) : ClassicFetchRes :=
  if self.more = false then
    ⟨none, some (.driver "Fetch: No result to fetch!"), self, []⟩
  else
    let nColumns := sqlite3_column_count self.statement
    if nColumns ≤ 0 then
      ⟨none, some (.driver "Fetch: No columns in result!"), self, [.columnCount]⟩
    else
      let n := nColumns.toNat
      let data := (List.range n).map (fun i => wsq_column_text self.statement i)
      let (rc, st1, cn1) := sqlite3_step self.statement self.connection
      let error : Option DbError :=
        if rc ≠ StatusDone ∧ rc ≠ StatusRow then some (Connection.error cn1) else none
      if rc = StatusDone then
        let (_, st2, ctr) := Statement.clear st1 cn1
        ⟨some data, error, ⟨st2, cn1, false⟩,
          [.columnCount] ++ (List.range n).map Call.columnText ++ [.step] ++ ctr⟩
      else
        ⟨some data, error, ⟨st1, cn1, self.more⟩,
          [.columnCount] ++ (List.range n).map Call.columnText ++ [.step]⟩

/-- `func (self *ClassicResultSet) More() bool`. -/
def ClassicResultSet.More (self : ClassicResultSet) : Bool := self.more

/-- `func (self *Cursor) MoreResults() bool`. -/
def Cursor.MoreResults (self : Cursor) : Bool := self.result

/-! ### ExecuteClassic -/

/-- The `for k, v := range pa { wsq_bind_text(s.handle, k+1, v) }` loop of
`ExecuteClassic`, binding values to slots `k, k+1, ...`; stops at the first
non-OK status. -/
def bindLoop (s : Statement) (ps : List String) (k : Nat) : Int × Statement × List Call :=
  match ps with
  | [] => (StatusOk, s, [])
  | v :: rest =>
      let (rc, s1) := wsq_bind_text s k v
      if rc = StatusOk then
        let (rc2, s2, tr) := bindLoop s1 rest (k + 1)
        (rc2, s2, Call.bind k v :: tr)
      else (rc, s1, [Call.bind k v])

/-- Result of `Connection.ExecuteClassic`: the Go
`(rset db.ClassicResultSet, error os.Error)` pair plus the statement and
connection states and the trace. -/
structure ExecRes where
  rset : Option ClassicResultSet
  error : Option DbError
  statement : Statement
  connection : Connection
  calls : List Call

/-- `func (self *Connection) ExecuteClassic(statement db.Statement, parameters ...)`.
The type-assertion guard (not an sqlite3 statement) is outside the model: the
statement argument is always ours.  Parameters are all text (the driver treats
every value as a string). -/
def Connection.ExecuteClassic (self : Connection) (s : Statement) (parameters : List String) :
    ExecRes :=
  if parameters.length ≠ sqlite3_bind_parameter_count s then
    ⟨none, some (.driver "Execute: Number of parameters doesn't match!"), s, self,
      [.bindParameterCount]⟩
  else
    let bl := bindLoop s parameters 1
    if bl.1 ≠ StatusOk then
      let e := Connection.error self
      let cl := Statement.clear bl.2.1 self
      ⟨none, some e, cl.2.1, self, [.bindParameterCount] ++ bl.2.2 ++ cl.2.2⟩
    else
      let st := sqlite3_step bl.2.1 self
      let error : Option DbError :=
        if st.1 ≠ StatusDone ∧ st.1 ≠ StatusRow then some (Connection.error st.2.2) else none
      if st.1 = StatusRow then
        ⟨some ⟨st.2.1, st.2.2, true⟩, error, st.2.1, st.2.2,
          [.bindParameterCount] ++ bl.2.2 ++ [.step]⟩
      else
        let cl := Statement.clear st.2.1 st.2.2
        ⟨none, error, cl.2.1, st.2.2, [.bindParameterCount] ++ bl.2.2 ++ [.step] ++ cl.2.2⟩

/-! ### FetchMany / FetchAll -/

/-- Result of `Cursor.FetchMany` / `Cursor.FetchAll`. -/
structure FetchManyRes where
  data : Option (List (List String))
  error : Option DbError
  self : Cursor
  calls : List Call

/-- The `for l < count { d[l], e = self.FetchOne(); ... }` loop of `FetchMany`:
collect successful `FetchOne` rows, stop at the first error (the error slot is
`none` when the loop ends because the count was reached). -/
def fetchManyLoop (c : Cursor) : Nat → List (List String) × Option DbError × Cursor × List Call
  | 0 => ([], none, c, [])
  | Nat.succ k =>
      let r := Cursor.FetchOne c
      match r.error with
      | none =>
          let t := fetchManyLoop r.self k
          (r.data.getD [] :: t.1, t.2.1, t.2.2.1, r.calls ++ t.2.2.2)
      | some e => ([], some e, r.self, r.calls)

/-- `func (self *Cursor) FetchMany(count int) ([][]interface{}, os.Error)`.
Go's `make([][]interface{}, count)` panics for a negative count, modelled as
`none`. -/
def Cursor.FetchMany (self : Cursor) (count : Int) : Option FetchManyRes :=
  if count < 0 then none
  else
    let t := fetchManyLoop self count.toNat
    if 0 < t.1.length then some ⟨some t.1, none, t.2.2.1, t.2.2.2⟩
    else some ⟨none, t.2.1, t.2.2.1, t.2.2.2⟩

/-- Termination measure for the unbounded `FetchAll` loop: each successful
`FetchOne` either consumes one oracle answer or (when the oracle is empty)
turns the cursor's `result` flag off. -/
def Cursor.fetchMeasure (c : Cursor) : Nat :=
  2 * c.statement.pending.length + (if c.result then 1 else 0)

/-- The row `FetchOne`-style operations assemble from the current engine row. -/
def currentRow (s : Statement) : List String :=
  (List.range s.ncols.toNat).map (wsq_column_text s)

/-- The trace of the row-assembly phase of `FetchOne`. -/
def readTrace (s : Statement) : List Call :=
  [.columnCount] ++ (List.range s.ncols.toNat).map Call.columnText

/-- `Statement.clear` leaves the step oracle (`pending`) untouched. -/
theorem clear_pending (s : Statement) (cn : Connection) :
    ((Statement.clear s cn).2.1).pending = s.pending := by
  unfold Statement.clear sqlite3_reset sqlite3_clear_bindings
  by_cases h1 : s.resetRc = StatusOk <;> by_cases h2 : s.clearRc = StatusOk <;> simp [h1, h2]

/-- When the engine accepts the reset, `clear` resets the statement, clears
its bindings, and reports no error exactly when `clear_bindings` succeeds. -/
theorem clear_ok (s : Statement) (cn : Connection) (h : s.resetRc = StatusOk) :
    Statement.clear s cn =
      ((if s.clearRc = StatusOk then none else some (Connection.error cn)),
       { s with wasReset := true, cur := [], wasCleared := true, bindings := [] },
       [.reset, .clearBindings]) := by
  unfold Statement.clear sqlite3_reset sqlite3_clear_bindings
  by_cases h2 : s.clearRc = StatusOk <;> simp [h, h2]

/-- `FetchOne` on an exhausted cursor: usage error, no data, no engine call. -/
theorem fetchOne_noResults (c : Cursor) (hr : c.result = false) :
    Cursor.FetchOne c = ⟨none, some (.driver "FetchOne: No results to fetch!"), c, []⟩ := by
  simp [Cursor.FetchOne, hr]

/-- `FetchOne` when the engine reports no columns: usage error before any step. -/
theorem fetchOne_noCols (c : Cursor) (hr : c.result = true) (hc : c.statement.ncols ≤ 0) :
    Cursor.FetchOne c =
      ⟨none, some (.driver "FetchOne: No columns in result!"), c, [.columnCount]⟩ := by
  simp [Cursor.FetchOne, hr, sqlite3_column_count, hc]

/-- `FetchOne` when the lookahead step yields another row. -/
theorem fetchOne_row (c : Cursor) (d : List String) (rest : List StepOut)
    (hr : c.result = true) (hc : 0 < c.statement.ncols)
    (hp : c.statement.pending = .row d :: rest) :
    Cursor.FetchOne c =
      ⟨some (currentRow c.statement), none,
       ⟨{ c.statement with pending := rest, cur := d, wasReset := false, wasCleared := false },
        c.connection, true⟩,
       readTrace c.statement ++ [.step]⟩ := by
  simp [Cursor.FetchOne, hr, sqlite3_column_count, not_le.mpr hc, sqlite3_step, hp,
        StatusRow, StatusDone, currentRow, readTrace]

/-- `FetchOne` when the lookahead step reports completion: the row is still
delivered, no error, the flag goes off and the statement is cleared. -/
theorem fetchOne_done (c : Cursor) (rest : List StepOut)
    (hr : c.result = true) (hc : 0 < c.statement.ncols)
    (hp : c.statement.pending = .done :: rest) :
    Cursor.FetchOne c =
      ⟨some (currentRow c.statement), none,
       ⟨(Statement.clear
           { c.statement with pending := rest, wasReset := false, wasCleared := false }
           c.connection).2.1,
        c.connection, false⟩,
       readTrace c.statement ++ [.step] ++
         (Statement.clear
           { c.statement with pending := rest, wasReset := false, wasCleared := false }
           c.connection).2.2⟩ := by
  simp [Cursor.FetchOne, hr, sqlite3_column_count, not_le.mpr hc, sqlite3_step, hp,
        StatusRow, StatusDone, currentRow, readTrace]

/-- `FetchOne` when the oracle is out of answers: the engine answers DONE
without consuming anything. -/
theorem fetchOne_nil (c : Cursor)
    (hr : c.result = true) (hc : 0 < c.statement.ncols)
    (hp : c.statement.pending = []) :
    Cursor.FetchOne c =
      ⟨some (currentRow c.statement), none,
       ⟨(Statement.clear
           { c.statement with wasReset := false, wasCleared := false }
           c.connection).2.1,
        c.connection, false⟩,
       readTrace c.statement ++ [.step] ++
         (Statement.clear
           { c.statement with wasReset := false, wasCleared := false }
           c.connection).2.2⟩ := by
  simp [Cursor.FetchOne, hr, sqlite3_column_count, not_le.mpr hc, sqlite3_step, hp,
        StatusRow, StatusDone, currentRow, readTrace]

/-- `FetchOne` when the step reports an engine error (neither ROW nor DONE):
the row is still delivered together with the surfaced engine error, and the
statement is neither reset nor cleared — the flag stays on. -/
theorem fetchOne_err (c : Cursor) (code : Int) (msg : String) (rest : List StepOut)
    (hr : c.result = true) (hc : 0 < c.statement.ncols)
    (hp : c.statement.pending = .err code msg :: rest)
    (h1 : code ≠ StatusDone) (h2 : code ≠ StatusRow) :
    Cursor.FetchOne c =
      ⟨some (currentRow c.statement),
       some (.system (Int.land code 0xff) code msg),
       ⟨{ c.statement with pending := rest, wasReset := false, wasCleared := false },
        ⟨code, msg⟩, true⟩,
       readTrace c.statement ++ [.step]⟩ := by
  simp [Cursor.FetchOne, hr, sqlite3_column_count, not_le.mpr hc, sqlite3_step, hp,
        h1, h2, Connection.error, currentRow, readTrace]

/-- Degenerate oracle case: an "error" answer whose code happens to be
SQLITE_DONE is treated by the driver as completion (it only looks at the
status code), but the session error slot was loaded. -/
theorem fetchOne_errAsDone (c : Cursor) (msg : String) (rest : List StepOut)
    (hr : c.result = true) (hc : 0 < c.statement.ncols)
    (hp : c.statement.pending = .err StatusDone msg :: rest) :
    Cursor.FetchOne c =
      ⟨some (currentRow c.statement), none,
       ⟨(Statement.clear
           { c.statement with pending := rest, wasReset := false, wasCleared := false }
           ⟨StatusDone, msg⟩).2.1,
        ⟨StatusDone, msg⟩, false⟩,
       readTrace c.statement ++ [.step] ++
         (Statement.clear
           { c.statement with pending := rest, wasReset := false, wasCleared := false }
           ⟨StatusDone, msg⟩).2.2⟩ := by
  simp [Cursor.FetchOne, hr, sqlite3_column_count, not_le.mpr hc, sqlite3_step, hp,
        StatusRow, StatusDone, currentRow, readTrace]

/-- Degenerate oracle case: an "error" answer whose code happens to be
SQLITE_ROW is treated by the driver as a row. -/
theorem fetchOne_errAsRow (c : Cursor) (msg : String) (rest : List StepOut)
    (hr : c.result = true) (hc : 0 < c.statement.ncols)
    (hp : c.statement.pending = .err StatusRow msg :: rest) :
    Cursor.FetchOne c =
      ⟨some (currentRow c.statement), none,
       ⟨{ c.statement with pending := rest, wasReset := false, wasCleared := false },
        ⟨StatusRow, msg⟩, true⟩,
       readTrace c.statement ++ [.step]⟩ := by
  simp [Cursor.FetchOne, hr, sqlite3_column_count, not_le.mpr hc, sqlite3_step, hp,
        StatusRow, StatusDone, currentRow, readTrace]

/-- A successful `FetchOne` strictly decreases the fetch measure. -/
theorem fetchOne_measure_lt (c : Cursor) (h : (Cursor.FetchOne c).error = none) :
    Cursor.fetchMeasure (Cursor.FetchOne c).self < Cursor.fetchMeasure c := by
  by_cases hr : c.result = true
  · by_cases hc : 0 < c.statement.ncols
    · cases hp : c.statement.pending with
      | nil =>
          rw [fetchOne_nil c hr hc hp]
          simp [Cursor.fetchMeasure, clear_pending, hr, hp]
      | cons o rest =>
          cases o with
          | row d =>
              rw [fetchOne_row c d rest hr hc hp]
              simp [Cursor.fetchMeasure, hr, hp]
          | done =>
              rw [fetchOne_done c rest hr hc hp]
              have := clear_pending
                { c.statement with pending := rest, wasReset := false, wasCleared := false }
                c.connection
              simp [Cursor.fetchMeasure, this, hr, hp]
              omega
          | err code msg =>
              by_cases h1 : code = StatusDone
              · subst h1
                rw [fetchOne_errAsDone c msg rest hr hc hp]
                have := clear_pending
                  { c.statement with pending := rest, wasReset := false, wasCleared := false }
                  (⟨StatusDone, msg⟩ : Connection)
                simp [Cursor.fetchMeasure, this, hr, hp]
                omega
              · by_cases h2 : code = StatusRow
                · subst h2
                  rw [fetchOne_errAsRow c msg rest hr hc hp]
                  simp [Cursor.fetchMeasure, hr, hp]
                · rw [fetchOne_err c code msg rest hr hc hp h1 h2] at h
                  simp at h
    · rw [fetchOne_noCols c hr (by omega)] at h
      simp at h
  · have : c.result = false := by
      cases hres : c.result with
      | false => rfl
      | true => exact absurd hres hr
    rw [fetchOne_noResults c this] at h
    simp at h

/-- The `for { d, e = self.FetchOne(); if e != nil { break }; v.Push(d) }` loop
of `FetchAll`: collect successful `FetchOne` rows until the first error (the
loop always terminates because the engine oracle is finite). -/
def fetchAllLoop (c : Cursor) : List (List String) × Option DbError × Cursor × List Call :=
  let r := Cursor.FetchOne c
  match h : r.error with
  | some e => ([], some e, r.self, r.calls)
  | none =>
      let t := fetchAllLoop r.self
      (r.data.getD [] :: t.1, t.2.1, t.2.2.1, r.calls ++ t.2.2.2)
termination_by Cursor.fetchMeasure c
decreasing_by exact fetchOne_measure_lt c h

/-- `func (self *Cursor) FetchAll() ([][]interface{}, os.Error)`. -/
def Cursor.FetchAll (self : Cursor) : FetchManyRes :=
  let t := fetchAllLoop self
  if 0 < t.1.length then ⟨some t.1, none, t.2.2.1, t.2.2.2⟩
  else ⟨none, t.2.1, t.2.2.1, t.2.2.2⟩

/-! ### Characterization of `FetchRow` -/

/-- The name/value pairs `FetchRow` assembles from the current engine row. -/
def currentNamedRow (s : Statement) : List (String × String) :=
  (List.range s.ncols.toNat).map (fun i => (wsq_column_name s i, wsq_column_text s i))

/-- The trace of the row-assembly phase of `FetchRow`. -/
def readTraceNamed (s : Statement) : List Call :=
  [.columnCount] ++ (List.range s.ncols.toNat).flatMap (fun i => [Call.columnText i, Call.columnName i])

/-- `FetchRow` on an exhausted cursor: usage error, no data, no engine call. -/
theorem fetchRow_noResults (c : Cursor) (hr : c.result = false) :
    Cursor.FetchRow c = ⟨none, some (.driver "FetchRow: No results to fetch!"), c, []⟩ := by
  simp [Cursor.FetchRow, hr]

/-- `FetchRow` when the engine reports no columns: usage error before any step. -/
theorem fetchRow_noCols (c : Cursor) (hr : c.result = true) (hc : c.statement.ncols ≤ 0) :
    Cursor.FetchRow c =
      ⟨none, some (.driver "FetchRow: No columns in result!"), c, [.columnCount]⟩ := by
  simp [Cursor.FetchRow, hr, sqlite3_column_count, hc]

/-- `FetchRow` when the lookahead step yields another row. -/
theorem fetchRow_row (c : Cursor) (d : List String) (rest : List StepOut)
    (hr : c.result = true) (hc : 0 < c.statement.ncols)
    (hp : c.statement.pending = .row d :: rest) :
    Cursor.FetchRow c =
      ⟨some (currentNamedRow c.statement), none,
       ⟨{ c.statement with pending := rest, cur := d, wasReset := false, wasCleared := false },
        c.connection, true⟩,
       readTraceNamed c.statement ++ [.step]⟩ := by
  simp [Cursor.FetchRow, hr, sqlite3_column_count, not_le.mpr hc, sqlite3_step, hp,
        StatusRow, StatusDone, currentNamedRow, readTraceNamed]

/-- `FetchRow` when the lookahead step reports completion. -/
theorem fetchRow_done (c : Cursor) (rest : List StepOut)
    (hr : c.result = true) (hc : 0 < c.statement.ncols)
    (hp : c.statement.pending = .done :: rest) :
    Cursor.FetchRow c =
      ⟨some (currentNamedRow c.statement), none,
       ⟨(Statement.clear
           { c.statement with pending := rest, wasReset := false, wasCleared := false }
           c.connection).2.1,
        c.connection, false⟩,
       readTraceNamed c.statement ++ [.step] ++
         (Statement.clear
           { c.statement with pending := rest, wasReset := false, wasCleared := false }
           c.connection).2.2⟩ := by
  simp [Cursor.FetchRow, hr, sqlite3_column_count, not_le.mpr hc, sqlite3_step, hp,
        StatusRow, StatusDone, currentNamedRow, readTraceNamed]

/-- `FetchRow` when the oracle is out of answers. -/
theorem fetchRow_nil (c : Cursor)
    (hr : c.result = true) (hc : 0 < c.statement.ncols)
    (hp : c.statement.pending = []) :
    Cursor.FetchRow c =
      ⟨some (currentNamedRow c.statement), none,
       ⟨(Statement.clear
           { c.statement with wasReset := false, wasCleared := false }
           c.connection).2.1,
        c.connection, false⟩,
       readTraceNamed c.statement ++ [.step] ++
         (Statement.clear
           { c.statement with wasReset := false, wasCleared := false }
           c.connection).2.2⟩ := by
  simp [Cursor.FetchRow, hr, sqlite3_column_count, not_le.mpr hc, sqlite3_step, hp,
        StatusRow, StatusDone, currentNamedRow, readTraceNamed]

/-- `FetchRow` when the step reports an engine error: error surfaced, no
reset, the flag stays on. -/
theorem fetchRow_err (c : Cursor) (code : Int) (msg : String) (rest : List StepOut)
    (hr : c.result = true) (hc : 0 < c.statement.ncols)
    (hp : c.statement.pending = .err code msg :: rest)
    (h1 : code ≠ StatusDone) (h2 : code ≠ StatusRow) :
    Cursor.FetchRow c =
      ⟨some (currentNamedRow c.statement),
       some (.system (Int.land code 0xff) code msg),
       ⟨{ c.statement with pending := rest, wasReset := false, wasCleared := false },
        ⟨code, msg⟩, true⟩,
       readTraceNamed c.statement ++ [.step]⟩ := by
  simp [Cursor.FetchRow, hr, sqlite3_column_count, not_le.mpr hc, sqlite3_step, hp,
        h1, h2, Connection.error, currentNamedRow, readTraceNamed]

/-- `FetchRow`, degenerate oracle case with an error code equal to SQLITE_DONE. -/
theorem fetchRow_errAsDone (c : Cursor) (msg : String) (rest : List StepOut)
    (hr : c.result = true) (hc : 0 < c.statement.ncols)
    (hp : c.statement.pending = .err StatusDone msg :: rest) :
    Cursor.FetchRow c =
      ⟨some (currentNamedRow c.statement), none,
       ⟨(Statement.clear
           { c.statement with pending := rest, wasReset := false, wasCleared := false }
           ⟨StatusDone, msg⟩).2.1,
        ⟨StatusDone, msg⟩, false⟩,
       readTraceNamed c.statement ++ [.step] ++
         (Statement.clear
           { c.statement with pending := rest, wasReset := false, wasCleared := false }
           ⟨StatusDone, msg⟩).2.2⟩ := by
  simp [Cursor.FetchRow, hr, sqlite3_column_count, not_le.mpr hc, sqlite3_step, hp,
        StatusRow, StatusDone, currentNamedRow, readTraceNamed]

/-- `FetchRow`, degenerate oracle case with an error code equal to SQLITE_ROW. -/
theorem fetchRow_errAsRow (c : Cursor) (msg : String) (rest : List StepOut)
    (hr : c.result = true) (hc : 0 < c.statement.ncols)
    (hp : c.statement.pending = .err StatusRow msg :: rest) :
    Cursor.FetchRow c =
      ⟨some (currentNamedRow c.statement), none,
       ⟨{ c.statement with pending := rest, wasReset := false, wasCleared := false },
        ⟨StatusRow, msg⟩, true⟩,
       readTraceNamed c.statement ++ [.step]⟩ := by
  simp [Cursor.FetchRow, hr, sqlite3_column_count, not_le.mpr hc, sqlite3_step, hp,
        StatusRow, StatusDone, currentNamedRow, readTraceNamed]

/-! ### Characterization of `ClassicResultSet.Fetch` -/

/-- `Fetch` on an exhausted result set: usage error, no data, no engine call. -/
theorem classicFetch_noResults (rs : ClassicResultSet) (hr : rs.more = false) :
    ClassicResultSet.Fetch rs = ⟨none, some (.driver "Fetch: No result to fetch!"), rs, []⟩ := by
  simp [ClassicResultSet.Fetch, hr]

/-- `Fetch` when the engine reports no columns. -/
theorem classicFetch_noCols (rs : ClassicResultSet) (hr : rs.more = true)
    (hc : rs.statement.ncols ≤ 0) :
    ClassicResultSet.Fetch rs =
      ⟨none, some (.driver "Fetch: No columns in result!"), rs, [.columnCount]⟩ := by
  simp [ClassicResultSet.Fetch, hr, sqlite3_column_count, hc]

/-- `Fetch` when the lookahead step yields another row. -/
theorem classicFetch_row (rs : ClassicResultSet) (d : List String) (rest : List StepOut)
    (hr : rs.more = true) (hc : 0 < rs.statement.ncols)
    (hp : rs.statement.pending = .row d :: rest) :
    ClassicResultSet.Fetch rs =
      ⟨some (currentRow rs.statement), none,
       ⟨{ rs.statement with pending := rest, cur := d, wasReset := false, wasCleared := false },
        rs.connection, true⟩,
       readTrace rs.statement ++ [.step]⟩ := by
  simp [ClassicResultSet.Fetch, hr, sqlite3_column_count, not_le.mpr hc, sqlite3_step, hp,
        StatusRow, StatusDone, currentRow, readTrace]

/-- `Fetch` when the lookahead step reports completion. -/
theorem classicFetch_done (rs : ClassicResultSet) (rest : List StepOut)
    (hr : rs.more = true) (hc : 0 < rs.statement.ncols)
    (hp : rs.statement.pending = .done :: rest) :
    ClassicResultSet.Fetch rs =
      ⟨some (currentRow rs.statement), none,
       ⟨(Statement.clear
           { rs.statement with pending := rest, wasReset := false, wasCleared := false }
           rs.connection).2.1,
        rs.connection, false⟩,
       readTrace rs.statement ++ [.step] ++
         (Statement.clear
           { rs.statement with pending := rest, wasReset := false, wasCleared := false }
           rs.connection).2.2⟩ := by
  simp [ClassicResultSet.Fetch, hr, sqlite3_column_count, not_le.mpr hc, sqlite3_step, hp,
        StatusRow, StatusDone, currentRow, readTrace]

/-- `Fetch` when the oracle is out of answers. -/
theorem classicFetch_nil (rs : ClassicResultSet)
    (hr : rs.more = true) (hc : 0 < rs.statement.ncols)
    (hp : rs.statement.pending = []) :
    ClassicResultSet.Fetch rs =
      ⟨some (currentRow rs.statement), none,
       ⟨(Statement.clear
           { rs.statement with wasReset := false, wasCleared := false }
           rs.connection).2.1,
        rs.connection, false⟩,
       readTrace rs.statement ++ [.step] ++
         (Statement.clear
           { rs.statement with wasReset := false, wasCleared := false }
           rs.connection).2.2⟩ := by
  simp [ClassicResultSet.Fetch, hr, sqlite3_column_count, not_le.mpr hc, sqlite3_step, hp,
        StatusRow, StatusDone, currentRow, readTrace]

/-- `Fetch` when the step reports an engine error: error surfaced into the
`Result`, no reset, `more` stays on. -/
theorem classicFetch_err (rs : ClassicResultSet) (code : Int) (msg : String) (rest : List StepOut)
    (hr : rs.more = true) (hc : 0 < rs.statement.ncols)
    (hp : rs.statement.pending = .err code msg :: rest)
    (h1 : code ≠ StatusDone) (h2 : code ≠ StatusRow) :
    ClassicResultSet.Fetch rs =
      ⟨some (currentRow rs.statement),
       some (.system (Int.land code 0xff) code msg),
       ⟨{ rs.statement with pending := rest, wasReset := false, wasCleared := false },
        ⟨code, msg⟩, true⟩,
       readTrace rs.statement ++ [.step]⟩ := by
  simp [ClassicResultSet.Fetch, hr, sqlite3_column_count, not_le.mpr hc, sqlite3_step, hp,
        h1, h2, Connection.error, currentRow, readTrace]

/-- `Fetch`, degenerate oracle case with an error code equal to SQLITE_DONE. -/
theorem classicFetch_errAsDone (rs : ClassicResultSet) (msg : String) (rest : List StepOut)
    (hr : rs.more = true) (hc : 0 < rs.statement.ncols)
    (hp : rs.statement.pending = .err StatusDone msg :: rest) :
    ClassicResultSet.Fetch rs =
      ⟨some (currentRow rs.statement), none,
       ⟨(Statement.clear
           { rs.statement with pending := rest, wasReset := false, wasCleared := false }
           ⟨StatusDone, msg⟩).2.1,
        ⟨StatusDone, msg⟩, false⟩,
       readTrace rs.statement ++ [.step] ++
         (Statement.clear
           { rs.statement with pending := rest, wasReset := false, wasCleared := false }
           ⟨StatusDone, msg⟩).2.2⟩ := by
  simp [ClassicResultSet.Fetch, hr, sqlite3_column_count, not_le.mpr hc, sqlite3_step, hp,
        StatusRow, StatusDone, currentRow, readTrace]

/-- `Fetch`, degenerate oracle case with an error code equal to SQLITE_ROW. -/
theorem classicFetch_errAsRow (rs : ClassicResultSet) (msg : String) (rest : List StepOut)
    (hr : rs.more = true) (hc : 0 < rs.statement.ncols)
    (hp : rs.statement.pending = .err StatusRow msg :: rest) :
    ClassicResultSet.Fetch rs =
      ⟨some (currentRow rs.statement), none,
       ⟨{ rs.statement with pending := rest, wasReset := false, wasCleared := false },
        ⟨StatusRow, msg⟩, true⟩,
       readTrace rs.statement ++ [.step]⟩ := by
  simp [ClassicResultSet.Fetch, hr, sqlite3_column_count, not_le.mpr hc, sqlite3_step, hp,
        StatusRow, StatusDone, currentRow, readTrace]

/-! ### Connection factory (`open`)

`open` parses the URL, adjusts the flags, opens the engine session and applies
the two post-open configuration calls.  Go `int` is 64-bit, so flags are
modelled as 64-bit patterns (`Nat`); `&^` is bitwise AND NOT within 64 bits. -/

/-- Open-mode flag: SQLITE_OPEN_NOMUTEX. -/
def OpenNoMutex : Nat := 0x00008000
/-- Open-mode flag: SQLITE_OPEN_FULLMUTEX. -/
def OpenFullMutex : Nat := 0x00010000

/-- `flags &^= OpenNoMutex; flags |= OpenFullMutex` — the two flag
adjustments `open` applies before calling `sqlite3_open_v2`
(`0xFFFFFFFFFFFF7FFF` is the 64-bit complement of `OpenNoMutex`). -/
def open_adjustFlags (flags : Nat) : Nat :=
  (flags &&& 0xFFFFFFFFFFFF7FFF) ||| OpenFullMutex

/-- `const defaultTimeoutMilliseconds = 16 * 1000`. -/
def defaultTimeoutMilliseconds : Nat := 16 * 1000

/-- Engine calls `open` makes, in order, recorded as a trace. -/
inductive OpenCall where
  | openV2 (flags : Nat) (vfs : Option String)
  | busyTimeout (ms : Nat)
  | extendedResultCodes
  | close
deriving Repr, DecidableEq

/-- Oracle for the engine calls made during one `open`: the status each call
returns, whether `sqlite3_open_v2` produced a handle despite failing, and the
contents of the session's error slot at each potential failure point. -/
structure OpenEnv where
  openRc : Int
  openHandle : Bool
  slotAfterOpen : Connection
  busyRc : Int
  slotAfterBusy : Connection
  extRc : Int
  slotAfterExt : Connection
  closeRc : Int

/-- `func open(url string) (db.Connection, os.Error)`, from the point where
`parseConnInfo` has produced `name`, `flags` and `vfs` (URL parsing itself is
external to the protocol).  Returns the connection or the error, plus the
engine-call trace.  On any failure after a handle was obtained, the handle is
closed and the `Close` result is discarded (`_ = conn.Close()`). -/
def openConnection (env : OpenEnv) (name : String) (flags : Nat) (vfs : Option String) :
    Option Connection × Option DbError × List OpenCall :=
  let flags2 := open_adjustFlags flags
  if env.openRc ≠ StatusOk then
    let e := Connection.error env.slotAfterOpen
    if env.openHandle then
      (none, some e, [.openV2 flags2 vfs, .close])
    else
      (none, some e, [.openV2 flags2 vfs])
  else if env.busyRc ≠ StatusOk then
    (none, some (Connection.error env.slotAfterBusy),
     [.openV2 flags2 vfs, .busyTimeout defaultTimeoutMilliseconds, .close])
  else if env.extRc ≠ StatusOk then
    (none, some (Connection.error env.slotAfterExt),
     [.openV2 flags2 vfs, .busyTimeout defaultTimeoutMilliseconds, .extendedResultCodes, .close])
  else
    (some env.slotAfterExt, none,
     [.openV2 flags2 vfs, .busyTimeout defaultTimeoutMilliseconds, .extendedResultCodes])

/-! ### The statement/cursor lifecycle machine

One statement, one connection, and (per the driver's one-cursor-per-statement
discipline) the hasMore flag of the live cursor/result set, if any.  `Execute`
installs the new result set (or leaves no live cursor when none is returned);
fetch operations drive the live cursor. -/

/-- Field-preservation facts for `Statement.clear`. -/
theorem clear_resetRc (s : Statement) (cn : Connection) :
    ((Statement.clear s cn).2.1).resetRc = s.resetRc := by
  unfold Statement.clear sqlite3_reset sqlite3_clear_bindings
  by_cases h1 : s.resetRc = StatusOk <;> by_cases h2 : s.clearRc = StatusOk <;> simp [h1, h2]

/-- When the engine accepts the reset, the cleared statement is ready for a
new execution. -/
theorem clear_ready (s : Statement) (cn : Connection) (h : s.resetRc = StatusOk) :
    Statement.ready ((Statement.clear s cn).2.1) := by
  rw [clear_ok s cn h]
  exact ⟨rfl, rfl, rfl⟩

/-- `sqlite3_step` preserves the reset status oracle. -/
theorem step_resetRc (s : Statement) (c : Connection) :
    ((sqlite3_step s c).2.1).resetRc = s.resetRc := by
  unfold sqlite3_step
  cases hp : s.pending with
  | nil => rfl
  | cons o rest => cases o <;> rfl

/-- `bindLoop` only touches `bindings` and the in-use marks. -/
theorem bindLoop_resetRc (ps : List String) (s : Statement) (k : Nat) :
    ((bindLoop s ps k).2.1).resetRc = s.resetRc := by
  induction ps generalizing s k with
  | nil => rfl
  | cons v rest ih =>
      unfold bindLoop wsq_bind_text
      by_cases hb : s.bindRc k = StatusOk <;> simp [hb, ih]

/-- `ExecuteClassic` preserves the reset status oracle, and any result set it
returns starts with `more = true`. -/
theorem executeClassic_inv (cn : Connection) (s : Statement) (ps : List String) :
    ((Connection.ExecuteClassic cn s ps).statement.resetRc = s.resetRc) ∧
    (∀ rs, (Connection.ExecuteClassic cn s ps).rset = some rs → rs.more = true) := by
  unfold Connection.ExecuteClassic
  by_cases hlen : ps.length ≠ sqlite3_bind_parameter_count s
  · simp [hlen]
  · simp only [hlen, if_false]
    by_cases hbrc : (bindLoop s ps 1).1 ≠ StatusOk
    · rw [if_pos hbrc]
      refine ⟨?_, ?_⟩
      · simp [clear_resetRc, bindLoop_resetRc]
      · intro rs h
        simp at h
    · rw [if_neg hbrc]
      by_cases hrow : (sqlite3_step (bindLoop s ps 1).2.1 cn).1 = StatusRow
      · rw [if_pos hrow]
        refine ⟨?_, ?_⟩
        · simp [step_resetRc, bindLoop_resetRc]
        · intro rs h
          simp at h
          rw [← h]
      · rw [if_neg hrow]
        refine ⟨?_, ?_⟩
        · simp [clear_resetRc, step_resetRc, bindLoop_resetRc]
        · intro rs h
          simp at h

/-- Operations a caller can perform on the statement through the driver. -/
inductive Op where
  | exec (parameters : List String)
  | fetchOne
  | fetchRow
  | fetchClassic

/-- The machine state: the statement, the connection, and the `hasMore`
(`result` / `more`) flag of the live cursor, when one exists. -/
structure MState where
  statement : Statement
  connection : Connection
  cursor : Option Bool

/-- One caller operation.  A fetch with no live cursor is a no-op (there is
no object to call the method on). -/
def runOp (s : MState) : Op → MState
  | .exec ps =>
      let r := Connection.ExecuteClassic s.connection s.statement ps
      ⟨r.statement, r.connection, r.rset.map (fun rs => rs.more)⟩
  | .fetchOne =>
      match s.cursor with
      | none => s
      | some b =>
          let r := Cursor.FetchOne ⟨s.statement, s.connection, b⟩
          ⟨r.self.statement, r.self.connection, some r.self.result⟩
  | .fetchRow =>
      match s.cursor with
      | none => s
      | some b =>
          let r := Cursor.FetchRow ⟨s.statement, s.connection, b⟩
          ⟨r.self.statement, r.self.connection, some r.self.result⟩
  | .fetchClassic =>
      match s.cursor with
      | none => s
      | some b =>
          let r := ClassicResultSet.Fetch ⟨s.statement, s.connection, b⟩
          ⟨r.self.statement, r.self.connection, some r.self.more⟩

/-- A sequence of caller operations. -/
def runOps (s : MState) (ops : List Op) : MState := ops.foldl runOp s

/-- The lifecycle invariant: the engine accepts resets, and once the live
cursor's `hasMore` flag is false the statement has been reset, its bindings
cleared, and it has not been used since — ready for a new execution. -/
def MInv (s : MState) : Prop :=
  s.statement.resetRc = StatusOk ∧ (s.cursor = some false → Statement.ready s.statement)

/-- After a `FetchOne` (with an engine that accepts resets), either the flag
is still on, or the call was a guarded no-op on an already-off flag, or the
statement has just been cleared and is ready. -/
theorem fetchOne_after (c : Cursor) (hres : c.statement.resetRc = StatusOk) :
    ((Cursor.FetchOne c).self.result = false →
      (c.result = false ∧ (Cursor.FetchOne c).self.statement = c.statement) ∨
      Statement.ready (Cursor.FetchOne c).self.statement) ∧
    (Cursor.FetchOne c).self.statement.resetRc = StatusOk := by
  by_cases hr : c.result = true
  · by_cases hc : 0 < c.statement.ncols
    · cases hp : c.statement.pending with
      | nil =>
          rw [fetchOne_nil c hr hc hp]
          exact ⟨fun _ => Or.inr (clear_ready _ _ hres), (clear_resetRc _ _).trans hres⟩
      | cons o rest =>
          cases o with
          | row d =>
              rw [fetchOne_row c d rest hr hc hp]
              exact ⟨fun hf => by simp at hf, hres⟩
          | done =>
              rw [fetchOne_done c rest hr hc hp]
              exact ⟨fun _ => Or.inr (clear_ready _ _ hres), (clear_resetRc _ _).trans hres⟩
          | err code msg =>
              by_cases h1 : code = StatusDone
              · subst h1
                rw [fetchOne_errAsDone c msg rest hr hc hp]
                exact ⟨fun _ => Or.inr (clear_ready _ _ hres), (clear_resetRc _ _).trans hres⟩
              · by_cases h2 : code = StatusRow
                · subst h2
                  rw [fetchOne_errAsRow c msg rest hr hc hp]
                  exact ⟨fun hf => by simp at hf, hres⟩
                · rw [fetchOne_err c code msg rest hr hc hp h1 h2]
                  exact ⟨fun hf => by simp at hf, hres⟩
    · rw [fetchOne_noCols c hr (by omega)]
      exact ⟨fun hf => absurd hf (by simp [hr]), hres⟩
  · have hrf : c.result = false := by revert hr; cases c.result <;> simp
    rw [fetchOne_noResults c hrf]
    exact ⟨fun _ => Or.inl ⟨hrf, rfl⟩, hres⟩

/-- `fetchOne_after` for `FetchRow`. -/
theorem fetchRow_after (c : Cursor) (hres : c.statement.resetRc = StatusOk) :
    ((Cursor.FetchRow c).self.result = false →
      (c.result = false ∧ (Cursor.FetchRow c).self.statement = c.statement) ∨
      Statement.ready (Cursor.FetchRow c).self.statement) ∧
    (Cursor.FetchRow c).self.statement.resetRc = StatusOk := by
  by_cases hr : c.result = true
  · by_cases hc : 0 < c.statement.ncols
    · cases hp : c.statement.pending with
      | nil =>
          rw [fetchRow_nil c hr hc hp]
          exact ⟨fun _ => Or.inr (clear_ready _ _ hres), (clear_resetRc _ _).trans hres⟩
      | cons o rest =>
          cases o with
          | row d =>
              rw [fetchRow_row c d rest hr hc hp]
              exact ⟨fun hf => by simp at hf, hres⟩
          | done =>
              rw [fetchRow_done c rest hr hc hp]
              exact ⟨fun _ => Or.inr (clear_ready _ _ hres), (clear_resetRc _ _).trans hres⟩
          | err code msg =>
              by_cases h1 : code = StatusDone
              · subst h1
                rw [fetchRow_errAsDone c msg rest hr hc hp]
                exact ⟨fun _ => Or.inr (clear_ready _ _ hres), (clear_resetRc _ _).trans hres⟩
              · by_cases h2 : code = StatusRow
                · subst h2
                  rw [fetchRow_errAsRow c msg rest hr hc hp]
                  exact ⟨fun hf => by simp at hf, hres⟩
                · rw [fetchRow_err c code msg rest hr hc hp h1 h2]
                  exact ⟨fun hf => by simp at hf, hres⟩
    · rw [fetchRow_noCols c hr (by omega)]
      exact ⟨fun hf => absurd hf (by simp [hr]), hres⟩
  · have hrf : c.result = false := by revert hr; cases c.result <;> simp
    rw [fetchRow_noResults c hrf]
    exact ⟨fun _ => Or.inl ⟨hrf, rfl⟩, hres⟩

/-- `fetchOne_after` for `ClassicResultSet.Fetch`. -/
theorem classicFetch_after (rs : ClassicResultSet) (hres : rs.statement.resetRc = StatusOk) :
    ((ClassicResultSet.Fetch rs).self.more = false →
      (rs.more = false ∧ (ClassicResultSet.Fetch rs).self.statement = rs.statement) ∨
      Statement.ready (ClassicResultSet.Fetch rs).self.statement) ∧
    (ClassicResultSet.Fetch rs).self.statement.resetRc = StatusOk := by
  by_cases hr : rs.more = true
  · by_cases hc : 0 < rs.statement.ncols
    · cases hp : rs.statement.pending with
      | nil =>
          rw [classicFetch_nil rs hr hc hp]
          exact ⟨fun _ => Or.inr (clear_ready _ _ hres), (clear_resetRc _ _).trans hres⟩
      | cons o rest =>
          cases o with
          | row d =>
              rw [classicFetch_row rs d rest hr hc hp]
              exact ⟨fun hf => by simp at hf, hres⟩
          | done =>
              rw [classicFetch_done rs rest hr hc hp]
              exact ⟨fun _ => Or.inr (clear_ready _ _ hres), (clear_resetRc _ _).trans hres⟩
          | err code msg =>
              by_cases h1 : code = StatusDone
              · subst h1
                rw [classicFetch_errAsDone rs msg rest hr hc hp]
                exact ⟨fun _ => Or.inr (clear_ready _ _ hres), (clear_resetRc _ _).trans hres⟩
              · by_cases h2 : code = StatusRow
                · subst h2
                  rw [classicFetch_errAsRow rs msg rest hr hc hp]
                  exact ⟨fun hf => by simp at hf, hres⟩
                · rw [classicFetch_err rs code msg rest hr hc hp h1 h2]
                  exact ⟨fun hf => by simp at hf, hres⟩
    · rw [classicFetch_noCols rs hr (by omega)]
      exact ⟨fun hf => absurd hf (by simp [hr]), hres⟩
  · have hrf : rs.more = false := by revert hr; cases rs.more <;> simp
    rw [classicFetch_noResults rs hrf]
    exact ⟨fun _ => Or.inl ⟨hrf, rfl⟩, hres⟩

/-- Every caller operation preserves the lifecycle invariant. -/
theorem runOp_preserves_inv (s : MState) (op : Op) (h : MInv s) : MInv (runOp s op) := by
  cases op with
  | exec ps =>
      obtain ⟨hpre, hmore⟩ := executeClassic_inv s.connection s.statement ps
      refine ⟨?_, ?_⟩
      · simp only [runOp]
        exact hpre.trans h.1
      · simp only [runOp]
        intro hc
        rcases hrs : (Connection.ExecuteClassic s.connection s.statement ps).rset with _ | rs
        · rw [hrs] at hc; simp at hc
        · rw [hrs] at hc
          simp [hmore rs hrs] at hc
  | fetchOne =>
      cases hcur : s.cursor with
      | none => simpa [runOp, hcur] using h
      | some b =>
          have ha := fetchOne_after ⟨s.statement, s.connection, b⟩ h.1
          refine ⟨?_, ?_⟩
          · simp only [runOp, hcur]
            exact ha.2
          · simp only [runOp, hcur]
            intro hf
            simp only [Option.some_inj] at hf
            rcases ha.1 hf with ⟨hb, hstmt⟩ | hready
            · rw [hstmt]
              exact h.2 (by rw [hcur, show b = false from hb])
            · exact hready
  | fetchRow =>
      cases hcur : s.cursor with
      | none => simpa [runOp, hcur] using h
      | some b =>
          have ha := fetchRow_after ⟨s.statement, s.connection, b⟩ h.1
          refine ⟨?_, ?_⟩
          · simp only [runOp, hcur]
            exact ha.2
          · simp only [runOp, hcur]
            intro hf
            simp only [Option.some_inj] at hf
            rcases ha.1 hf with ⟨hb, hstmt⟩ | hready
            · rw [hstmt]
              exact h.2 (by rw [hcur, show b = false from hb])
            · exact hready
  | fetchClassic =>
      cases hcur : s.cursor with
      | none => simpa [runOp, hcur] using h
      | some b =>
          have ha := classicFetch_after ⟨s.statement, s.connection, b⟩ h.1
          refine ⟨?_, ?_⟩
          · simp only [runOp, hcur]
            exact ha.2
          · simp only [runOp, hcur]
            intro hf
            simp only [Option.some_inj] at hf
            rcases ha.1 hf with ⟨hb, hstmt⟩ | hready
            · rw [hstmt]
              exact h.2 (by rw [hcur, show b = false from hb])
            · exact hready

/-- The lifecycle invariant is preserved by every operation sequence. -/
theorem runOps_preserves_inv (ops : List Op) (s : MState) (h : MInv s) :
    MInv (runOps s ops) := by
  induction ops generalizing s with
  | nil => exact h
  | cons op rest ih => exact ih (runOp s op) (runOp_preserves_inv s op h)

/-! ### Lemmas for `ExecuteClassic` -/

/-- `sqlite3_step` on a row answer. -/
theorem step_row (s : Statement) (c : Connection) (d : List String) (rest : List StepOut)
    (hp : s.pending = .row d :: rest) :
    sqlite3_step s c =
      (StatusRow, { s with pending := rest, cur := d, wasReset := false, wasCleared := false },
       c) := by
  unfold sqlite3_step
  rw [hp]

/-- `sqlite3_step` on a done answer. -/
theorem step_done (s : Statement) (c : Connection) (rest : List StepOut)
    (hp : s.pending = .done :: rest) :
    sqlite3_step s c =
      (StatusDone, { s with pending := rest, wasReset := false, wasCleared := false }, c) := by
  unfold sqlite3_step
  rw [hp]

/-- When the engine accepts every bind, the bind loop succeeds and touches
only the bindings and the in-use marks. -/
theorem bindLoop_ok (ps : List String) (s : Statement) (k : Nat)
    (hb : ∀ j, k ≤ j → j < k + ps.length → s.bindRc j = StatusOk) :
    (bindLoop s ps k).1 = StatusOk ∧
    (bindLoop s ps k).2.1.pending = s.pending ∧
    (bindLoop s ps k).2.1.cur = s.cur ∧
    (bindLoop s ps k).2.1.resetRc = s.resetRc := by
  induction ps generalizing s k with
  | nil => exact ⟨rfl, rfl, rfl, rfl⟩
  | cons v rest ih =>
      have hk : s.bindRc k = StatusOk := hb k le_rfl (by simp)
      have hrest : ∀ j, k + 1 ≤ j → j < (k + 1) + rest.length → s.bindRc j = StatusOk := by
        intro j h1 h2
        exact hb j (by omega) (by simp; omega)
      have hih := ih { s with bindings := s.bindings ++ [(k, v)], wasReset := false, wasCleared := false } (k + 1) hrest
      simp only [bindLoop, wsq_bind_text, hk, ite_true, if_true, eq_self_iff_true]
      exact ⟨hih.1, hih.2.1, hih.2.2.1, hih.2.2.2⟩

/-! ### The claims -/

/-- C6: calling `ExecuteClassic` with a parameter list whose length differs
from the statement's declared slot count fails with the usage error and makes
no engine bind call (the only engine call is the slot-count query). -/
theorem executeClassic_param_mismatch (cn : Connection) (s : Statement) (ps : List String)
    (h : ps.length ≠ s.paramCount) :
    Connection.ExecuteClassic cn s ps =
      ⟨none, some (.driver "Execute: Number of parameters doesn't match!"), s, cn,
        [.bindParameterCount]⟩ ∧
    (∀ i v, Call.bind i v ∉ (Connection.ExecuteClassic cn s ps).calls) ∧
    Call.step ∉ (Connection.ExecuteClassic cn s ps).calls := by
  have heq : Connection.ExecuteClassic cn s ps =
      ⟨none, some (.driver "Execute: Number of parameters doesn't match!"), s, cn,
        [.bindParameterCount]⟩ := by
    unfold Connection.ExecuteClassic
    rw [if_pos (show ps.length ≠ sqlite3_bind_parameter_count s from h)]
  refine ⟨heq, ?_, ?_⟩
  · intro i v
    rw [heq]
    simp
  · rw [heq]
    simp

/-- C1: on a matching parameter list that the engine binds successfully,
`ExecuteClassic`'s behaviour is decided by the first step: a row answer
returns a live result set bound to this statement with `more = true` and no
error; a done answer returns no result set and no error, and leaves the
statement reset with its bindings cleared. -/
theorem executeClassic_first_step (cn : Connection) (s : Statement) (ps : List String)
    (hlen : ps.length = s.paramCount)
    (hb : ∀ j, 1 ≤ j → j ≤ ps.length → s.bindRc j = StatusOk) :
    (∀ d rest, s.pending = .row d :: rest →
        ∃ rs, (Connection.ExecuteClassic cn s ps).rset = some rs ∧ rs.more = true ∧
          rs.statement = (Connection.ExecuteClassic cn s ps).statement ∧
          rs.connection = (Connection.ExecuteClassic cn s ps).connection ∧
          (Connection.ExecuteClassic cn s ps).error = none) ∧
    (∀ rest, s.pending = .done :: rest → s.resetRc = StatusOk →
        (Connection.ExecuteClassic cn s ps).rset = none ∧
        (Connection.ExecuteClassic cn s ps).error = none ∧
        Statement.ready (Connection.ExecuteClassic cn s ps).statement) := by
  obtain ⟨hbrc, hpend, hcur, hres⟩ := bindLoop_ok ps s 1 (fun j h1 h2 => hb j h1 (by omega))
  unfold Connection.ExecuteClassic
  rw [if_neg (not_not_intro (show ps.length = sqlite3_bind_parameter_count s from hlen))]
  rw [if_neg (not_not_intro hbrc)]
  constructor
  · intro d rest hp
    rw [step_row _ _ d rest (hpend.trans hp)]
    simp [StatusRow, StatusDone]
  · intro rest hp hreset
    rw [step_done _ _ rest (hpend.trans hp)]
    have hready : Statement.ready
        ((Statement.clear
          { (bindLoop s ps 1).2.1 with pending := rest, wasReset := false, wasCleared := false }
          cn).2.1) :=
      clear_ready _ _ (hres.trans hreset)
    simp only [StatusRow, StatusDone]
    refine ⟨by norm_num, by norm_num, ?_⟩
    simpa using hready

/-- C2: over every sequence of Execute and fetch operations, once the live
cursor's `hasMore` flag is false the statement has been reset with bindings
cleared (ready for a new execution); and no fetch ever touches the engine on
a cursor whose flag is false (its trace is empty, so in particular it never
steps). -/
theorem cursor_lifecycle_invariant :
    (∀ (ops : List Op) (s : MState), MInv s → MInv (runOps s ops)) ∧
    (∀ c : Cursor, c.result = false →
        (Cursor.FetchOne c).calls = [] ∧ (Cursor.FetchOne c).self = c ∧
        (Cursor.FetchRow c).calls = [] ∧ (Cursor.FetchRow c).self = c) ∧
    (∀ rs : ClassicResultSet, rs.more = false →
        (ClassicResultSet.Fetch rs).calls = [] ∧ (ClassicResultSet.Fetch rs).self = rs) := by
  refine ⟨fun ops s h => runOps_preserves_inv ops s h, ?_, ?_⟩
  · intro c h
    rw [fetchOne_noResults c h, fetchRow_noResults c h]
    exact ⟨rfl, rfl, rfl, rfl⟩
  · intro rs h
    rw [classicFetch_noResults rs h]
    exact ⟨rfl, rfl⟩

/-- C3 (amended): when the lookahead step of a fetch returns a status that is
neither ROW nor DONE, the engine error (basic = extended & 0xff, extended
code, message) is surfaced to the caller, but the statement is NOT reset: no
reset call is made and the cursor's `hasMore` flag stays true. -/
theorem fetch_engine_error_surfaced_without_reset :
    (∀ (c : Cursor) (code : Int) (msg : String) (rest : List StepOut),
        c.result = true → 0 < c.statement.ncols →
        c.statement.pending = .err code msg :: rest →
        code ≠ StatusDone → code ≠ StatusRow →
        (Cursor.FetchOne c).error = some (.system (Int.land code 0xff) code msg) ∧
        (Cursor.FetchOne c).self.result = true ∧
        Call.reset ∉ (Cursor.FetchOne c).calls ∧
        (Cursor.FetchOne c).self.statement.wasReset = false ∧
        (Cursor.FetchRow c).error = some (.system (Int.land code 0xff) code msg) ∧
        (Cursor.FetchRow c).self.result = true ∧
        Call.reset ∉ (Cursor.FetchRow c).calls) ∧
    (∀ (rs : ClassicResultSet) (code : Int) (msg : String) (rest : List StepOut),
        rs.more = true → 0 < rs.statement.ncols →
        rs.statement.pending = .err code msg :: rest →
        code ≠ StatusDone → code ≠ StatusRow →
        (ClassicResultSet.Fetch rs).error = some (.system (Int.land code 0xff) code msg) ∧
        (ClassicResultSet.Fetch rs).self.more = true ∧
        Call.reset ∉ (ClassicResultSet.Fetch rs).calls ∧
        (ClassicResultSet.Fetch rs).self.statement.wasReset = false) := by
  constructor
  · intro c code msg rest hr hc hp h1 h2
    rw [fetchOne_err c code msg rest hr hc hp h1 h2,
        fetchRow_err c code msg rest hr hc hp h1 h2]
    refine ⟨rfl, rfl, by simp [readTrace], rfl, rfl, rfl, by simp [readTraceNamed]⟩
  · intro rs code msg rest hr hc hp h1 h2
    rw [classicFetch_err rs code msg rest hr hc hp h1 h2]
    refine ⟨rfl, rfl, by simp [readTrace], rfl⟩

/-- C4: `FetchOne` on a cursor whose `hasMore` flag is false fails with the
usage error, returns no row data, and makes no engine call at all. -/
theorem fetchOne_exhausted_usage_error (c : Cursor) (h : c.result = false) :
    (Cursor.FetchOne c).error = some (.driver "FetchOne: No results to fetch!") ∧
    (Cursor.FetchOne c).data = none ∧
    (Cursor.FetchOne c).calls = [] := by
  rw [fetchOne_noResults c h]
  exact ⟨rfl, rfl, rfl⟩

/-- C9: every engine error built by `Connection.error` stores a basic code
equal to its extended code masked to the low byte, the extended code from the
session's error slot, and the engine's message read at construction time. -/
theorem connection_error_code_mask (cn : Connection) (b x : Int) (m : String)
    (h : Connection.error cn = .system b x m) :
    b = Int.land x 0xff ∧ x = cn.errcode ∧ m = cn.errmsg := by
  unfold Connection.error at h
  injection h with h1 h2 h3
  subst h2
  exact ⟨h1.symm, rfl, h3.symm⟩

/-- C10: a fetch made while `hasMore` is true against a statement whose
reported column count is not positive fails with the no-columns usage error,
returns no row data, and never advances the engine with a step call. -/
theorem fetch_no_columns_guard (c : Cursor) (rs : ClassicResultSet)
    (hc : c.result = true) (hnc : c.statement.ncols ≤ 0)
    (hm : rs.more = true) (hrc : rs.statement.ncols ≤ 0) :
    (Cursor.FetchOne c).error = some (.driver "FetchOne: No columns in result!") ∧
    (Cursor.FetchOne c).data = none ∧ Call.step ∉ (Cursor.FetchOne c).calls ∧
    (Cursor.FetchRow c).error = some (.driver "FetchRow: No columns in result!") ∧
    (Cursor.FetchRow c).data = none ∧ Call.step ∉ (Cursor.FetchRow c).calls ∧
    (ClassicResultSet.Fetch rs).error = some (.driver "Fetch: No columns in result!") ∧
    (ClassicResultSet.Fetch rs).data = none ∧
    Call.step ∉ (ClassicResultSet.Fetch rs).calls := by
  rw [fetchOne_noCols c hc hnc, fetchRow_noCols c hc hnc, classicFetch_noCols rs hm hrc]
  refine ⟨rfl, rfl, by simp, rfl, rfl, by simp, rfl, rfl, by simp⟩

/-- C7: whatever flags the caller supplies, the flags passed to the engine's
open call (the first engine call `open` makes) are the adjusted flags, whose
no-mutex bit (bit 15, 0x00008000) is cleared and whose full-mutex bit
(bit 16, 0x00010000) is set. -/
theorem open_forces_full_mutex (env : OpenEnv) (name : String) (flags : Nat)
    (vfs : Option String) :
    (openConnection env name flags vfs).2.2.head? =
      some (.openV2 (open_adjustFlags flags) vfs) ∧
    Nat.testBit (open_adjustFlags flags) 15 = false ∧
    Nat.testBit (open_adjustFlags flags) 16 = true := by
  refine ⟨?_, ?_, ?_⟩
  · unfold openConnection
    split_ifs <;> rfl
  · unfold open_adjustFlags OpenFullMutex
    simp [Nat.testBit_lor, Nat.testBit_land,
          show Nat.testBit 0xFFFFFFFFFFFF7FFF 15 = false by decide,
          show Nat.testBit 0x10000 15 = false by decide]
  · unfold open_adjustFlags OpenFullMutex
    simp [Nat.testBit_lor, show Nat.testBit 0x10000 16 = true by decide]

/-- C8: whenever `open` fails after a handle was obtained — engine open
reports failure but produced a handle, or a post-open configuration call
(busy-timeout, extended result codes) fails — the handle is closed before
returning, the error returned is the one captured from the session's error
slot before the cleanup, and the cleanup's own status never influences the
result. -/
theorem open_failure_cleanup (env : OpenEnv) (name : String) (flags : Nat)
    (vfs : Option String) :
    (env.openRc ≠ StatusOk → env.openHandle = true →
        (openConnection env name flags vfs).1 = none ∧
        (openConnection env name flags vfs).2.1 = some (Connection.error env.slotAfterOpen) ∧
        OpenCall.close ∈ (openConnection env name flags vfs).2.2) ∧
    (env.openRc = StatusOk → env.busyRc ≠ StatusOk →
        (openConnection env name flags vfs).1 = none ∧
        (openConnection env name flags vfs).2.1 = some (Connection.error env.slotAfterBusy) ∧
        OpenCall.close ∈ (openConnection env name flags vfs).2.2) ∧
    (env.openRc = StatusOk → env.busyRc = StatusOk → env.extRc ≠ StatusOk →
        (openConnection env name flags vfs).1 = none ∧
        (openConnection env name flags vfs).2.1 = some (Connection.error env.slotAfterExt) ∧
        OpenCall.close ∈ (openConnection env name flags vfs).2.2) ∧
    (∀ rc : Int, openConnection { env with closeRc := rc } name flags vfs =
        openConnection env name flags vfs) := by
  refine ⟨?_, ?_, ?_, fun rc => rfl⟩
  · intro h1 h2
    unfold openConnection
    rw [if_pos h1, if_pos h2]
    exact ⟨rfl, rfl, by simp⟩
  · intro h1 h2
    unfold openConnection
    rw [if_neg (not_not_intro h1), if_pos h2]
    exact ⟨rfl, rfl, by simp⟩
  · intro h1 h2 h3
    unfold openConnection
    rw [if_neg (not_not_intro h1), if_neg (not_not_intro h2), if_pos h3]
    exact ⟨rfl, rfl, by simp⟩

/-! ### Lemmas for `FetchMany` / `FetchAll` -/

/-- Unfolding `fetchAllLoop` when the first `FetchOne` fails. -/
theorem fetchAllLoop_err (c : Cursor) (e : DbError)
    (he : (Cursor.FetchOne c).error = some e) :
    fetchAllLoop c = ([], some e, (Cursor.FetchOne c).self, (Cursor.FetchOne c).calls) := by
  rw [fetchAllLoop]
  split
  next e' h' =>
    rw [he] at h'
    injection h' with h2
    rw [← h2]
  next h' =>
    rw [he] at h'
    exact absurd h' (by simp)

/-- Unfolding `fetchAllLoop` when the first `FetchOne` succeeds. -/
theorem fetchAllLoop_ok (c : Cursor)
    (he : (Cursor.FetchOne c).error = none) :
    fetchAllLoop c =
      ((Cursor.FetchOne c).data.getD [] :: (fetchAllLoop (Cursor.FetchOne c).self).1,
       (fetchAllLoop (Cursor.FetchOne c).self).2.1,
       (fetchAllLoop (Cursor.FetchOne c).self).2.2.1,
       (Cursor.FetchOne c).calls ++ (fetchAllLoop (Cursor.FetchOne c).self).2.2.2) := by
  rw [fetchAllLoop]
  split
  next e' h' =>
    rw [he] at h'
    exact absurd h' (by simp)
  next h' => rfl

/-- The bounded and the unbounded fetch loops follow the same `FetchOne`
sequence: the bounded loop's rows are a prefix of the unbounded loop's. -/
theorem fetchManyLoop_rows_take (m : Nat) (c : Cursor) :
    (fetchManyLoop c m).1 = (fetchAllLoop c).1.take m := by
  induction m generalizing c with
  | zero => simp [fetchManyLoop]
  | succ k ih =>
      cases he : (Cursor.FetchOne c).error with
      | none =>
          rw [fetchAllLoop_ok c he]
          simp [fetchManyLoop, he, ih]
      | some e =>
          rw [fetchAllLoop_err c e he]
          simp [fetchManyLoop, he]

/-- When the bounded loop (run at least once) produced no rows, its error slot
is the first `FetchOne`'s error, and that error is real. -/
theorem fetchManyLoop_nil_err (k : Nat) (c : Cursor)
    (hrows : (fetchManyLoop c (k + 1)).1 = []) :
    (fetchManyLoop c (k + 1)).2.1 = (Cursor.FetchOne c).error ∧
    (Cursor.FetchOne c).error ≠ none := by
  cases he : (Cursor.FetchOne c).error with
  | none => simp [fetchManyLoop, he] at hrows
  | some e => simp [fetchManyLoop, he]

/-- When the unbounded loop produced no rows, its error slot is the first
`FetchOne`'s error, and that error is real. -/
theorem fetchAllLoop_nil_err (c : Cursor) (hrows : (fetchAllLoop c).1 = []) :
    (fetchAllLoop c).2.1 = (Cursor.FetchOne c).error ∧
    (Cursor.FetchOne c).error ≠ none := by
  cases he : (Cursor.FetchOne c).error with
  | none => rw [fetchAllLoop_ok c he] at hrows; simp at hrows
  | some e => rw [fetchAllLoop_err c e he]; simp [he]

/-- C5 (amended): for a positive count, `FetchMany` returns the first
`count` rows of the `FetchOne` iteration with no error when at least one row
was obtained, and surfaces the first `FetchOne` error (with no rows) when
none was; `FetchAll` does the same without the bound.  (For `count = 0` no
rows and no error are returned; a negative count panics.) -/
theorem fetchMany_fetchAll_partial_success (c : Cursor) (count : Int) (hcount : 1 ≤ count) :
    (∃ res, Cursor.FetchMany c count = some res ∧
      ((fetchAllLoop c).1.take count.toNat ≠ [] →
          res.data = some ((fetchAllLoop c).1.take count.toNat) ∧ res.error = none) ∧
      ((fetchAllLoop c).1.take count.toNat = [] →
          res.data = none ∧ res.error = (Cursor.FetchOne c).error ∧
          (Cursor.FetchOne c).error ≠ none)) ∧
    ((fetchAllLoop c).1 ≠ [] →
        (Cursor.FetchAll c).data = some (fetchAllLoop c).1 ∧
        (Cursor.FetchAll c).error = none) ∧
    ((fetchAllLoop c).1 = [] →
        (Cursor.FetchAll c).data = none ∧
        (Cursor.FetchAll c).error = (Cursor.FetchOne c).error ∧
        (Cursor.FetchOne c).error ≠ none) := by
  have htake := fetchManyLoop_rows_take count.toNat c
  obtain ⟨k, hk⟩ : ∃ k, count.toNat = k + 1 := ⟨count.toNat - 1, by omega⟩
  refine ⟨?_, ?_, ?_⟩
  · unfold Cursor.FetchMany
    rw [if_neg (by omega : ¬ count < 0)]
    by_cases hr : 0 < (fetchManyLoop c count.toNat).1.length
    · rw [if_pos hr]
      refine ⟨_, rfl, fun _ => ⟨by rw [← htake], rfl⟩, fun hnil => absurd hnil ?_⟩
      rw [← htake]
      intro hx
      rw [hx] at hr
      simp at hr
    · rw [if_neg hr]
      have hnil : (fetchManyLoop c count.toNat).1 = [] := by
        cases hx : (fetchManyLoop c count.toNat).1 with
        | nil => rfl
        | cons a l => rw [hx] at hr; simp at hr
      have herr : (fetchManyLoop c count.toNat).2.1 = (Cursor.FetchOne c).error ∧
          (Cursor.FetchOne c).error ≠ none := by
        have h0 := fetchManyLoop_nil_err k c (by rw [← hk]; exact hnil)
        rw [← hk] at h0
        exact h0
      exact ⟨_, rfl, fun hne => absurd (htake.symm.trans hnil) hne,
        fun _ => ⟨rfl, herr.1, herr.2⟩⟩
  · intro hne
    unfold Cursor.FetchAll
    rw [if_pos (by cases hx : (fetchAllLoop c).1 with
        | nil => exact absurd hx hne
        | cons a l => simp)]
    exact ⟨rfl, rfl⟩
  · intro hnil
    have herr := fetchAllLoop_nil_err c hnil
    unfold Cursor.FetchAll
    rw [if_neg (by rw [hnil]; simp)]
    exact ⟨rfl, herr.1, herr.2⟩

/-- A sample exhausted cursor: flag off, statement ready, empty oracle. -/
def deadCursor : Cursor :=
  ⟨⟨0, 1, ["a"], ["x"], [], [], true, true, fun _ => StatusOk, StatusOk, StatusOk⟩,
   ⟨0, ""⟩, false⟩

/-- A sample exhausted classic result set. -/
def deadRSet : ClassicResultSet :=
  ⟨⟨0, 1, ["a"], ["x"], [], [], true, true, fun _ => StatusOk, StatusOk, StatusOk⟩,
   ⟨0, ""⟩, false⟩

/-- A sample live cursor over a three-row result: the current row is `r1` and
the oracle will deliver `r2`, `r3`, then completion. -/
def rows3Cursor : Cursor :=
  ⟨⟨0, 1, ["a"], ["r1"], [.row ["r2"], .row ["r3"], .done], [], false, false,
    fun _ => StatusOk, StatusOk, StatusOk⟩, ⟨0, ""⟩, true⟩

/-- `rows3Cursor` after one `FetchOne`. -/
def rows3CursorB : Cursor :=
  ⟨⟨0, 1, ["a"], ["r2"], [.row ["r3"], .done], [], false, false,
    fun _ => StatusOk, StatusOk, StatusOk⟩, ⟨0, ""⟩, true⟩

/-- `rows3Cursor` after two `FetchOne`s. -/
def rows3CursorC : Cursor :=
  ⟨⟨0, 1, ["a"], ["r3"], [.done], [], false, false,
    fun _ => StatusOk, StatusOk, StatusOk⟩, ⟨0, ""⟩, true⟩

/-- `rows3Cursor` after three `FetchOne`s: exhausted, statement cleared. -/
def rows3CursorD : Cursor :=
  ⟨⟨0, 1, ["a"], [], [], [], true, true, fun _ => StatusOk, StatusOk, StatusOk⟩,
   ⟨0, ""⟩, false⟩

/-- A sample live cursor whose next step reports engine error 1. -/
def errCursor : Cursor :=
  ⟨⟨0, 1, ["a"], ["x"], [.err 1 "disk I/O error"], [], false, false,
    fun _ => StatusOk, StatusOk, StatusOk⟩, ⟨0, ""⟩, true⟩

/-- A sample one-slot statement whose first step yields a row. -/
def execStmt : Statement :=
  ⟨1, 1, ["a"], ["x"], [.row ["y"]], [], false, false, fun _ => StatusOk, StatusOk, StatusOk⟩

/-- A sample two-slot statement (for the parameter-count mismatch witness). -/
def twoSlotStmt : Statement :=
  ⟨2, 1, ["a"], ["x"], [.done], [], false, false, fun _ => StatusOk, StatusOk, StatusOk⟩

/-- A sample live cursor over a statement reporting zero columns. -/
def noColsCursor : Cursor :=
  ⟨⟨0, 0, [], [], [.done], [], false, false, fun _ => StatusOk, StatusOk, StatusOk⟩,
   ⟨0, ""⟩, true⟩

/-- A sample live classic result set over a statement reporting zero columns. -/
def noColsRSet : ClassicResultSet :=
  ⟨⟨0, 0, [], [], [.done], [], false, false, fun _ => StatusOk, StatusOk, StatusOk⟩,
   ⟨0, ""⟩, true⟩

/-- A sample machine state: ready statement, cursor with one pending DONE. -/
def sampleMState : MState :=
  ⟨⟨0, 1, ["a"], ["x"], [.done], [], true, true, fun _ => StatusOk, StatusOk, StatusOk⟩,
   ⟨0, ""⟩, some true⟩

/-- A sample engine-open oracle where `sqlite3_open_v2` fails with code 14 but
still produces a handle. -/
def envOpenFail : OpenEnv :=
  ⟨14, true, ⟨14, "unable to open database file"⟩, 0, ⟨0, ""⟩, 0, ⟨0, ""⟩, 0⟩

/-- C5 counterexample: `FetchMany(0)` obtains zero rows, yet returns no error
at all — the underlying `FetchOne` error (which a direct call would produce)
is not surfaced, contradicting the claim for every call. -/
theorem fetchMany_zero_rows_no_error :
    Cursor.FetchMany deadCursor 0 = some ⟨none, none, deadCursor, []⟩ ∧
    (Cursor.FetchOne deadCursor).error = some (.driver "FetchOne: No results to fetch!") :=
  ⟨rfl, rfl⟩

/-! ### Witnesses -/

/-- Witness for C1 at a one-parameter statement whose first step yields a row. -/
theorem executeClassic_first_step_witness :
    (Connection.ExecuteClassic ⟨0, ""⟩ execStmt ["v"]).error = none ∧
    (Connection.ExecuteClassic ⟨0, ""⟩ execStmt ["v"]).rset.isSome = true := by
  have h := (executeClassic_first_step ⟨0, ""⟩ execStmt ["v"] rfl (fun j _ _ => rfl)).1
    ["y"] [] rfl
  obtain ⟨rs, hrs, _, _, _, herr⟩ := h
  exact ⟨herr, by rw [hrs]; rfl⟩

/-- Witness for C2: two fetches against a one-row cursor keep the invariant,
and fetches on exhausted cursors make no engine calls. -/
theorem cursor_lifecycle_invariant_witness :
    MInv (runOps sampleMState [Op.fetchOne, Op.fetchOne]) ∧
    (Cursor.FetchOne deadCursor).calls = [] ∧
    (ClassicResultSet.Fetch deadRSet).calls = [] := by
  have h := cursor_lifecycle_invariant
  exact ⟨h.1 [Op.fetchOne, Op.fetchOne] sampleMState ⟨rfl, fun hf => absurd hf (by decide)⟩,
    (h.2.1 deadCursor rfl).1, (h.2.2 deadRSet rfl).1⟩

/-- Witness for C3 (amended) at a cursor whose next step reports error 1. -/
theorem fetch_engine_error_surfaced_witness :
    (Cursor.FetchOne errCursor).error = some (.system (Int.land 1 0xff) 1 "disk I/O error") ∧
    (Cursor.FetchOne errCursor).self.result = true ∧
    Call.reset ∉ (Cursor.FetchOne errCursor).calls := by
  have h := fetch_engine_error_surfaced_without_reset.1 errCursor 1 "disk I/O error" []
    rfl (by decide) rfl (by decide) (by decide)
  exact ⟨h.1, h.2.1, h.2.2.1⟩

/-- C3 counterexample: the claim says an engine error during a fetch step
defensively resets the statement (transition to Idle); at this input the
error is surfaced but no reset call is made, the statement is not reset, and
the cursor's flag stays true. -/
theorem fetch_engine_error_no_reset_counterexample :
    (Cursor.FetchOne errCursor).error = some (.system 1 1 "disk I/O error") ∧
    Call.reset ∉ (Cursor.FetchOne errCursor).calls ∧
    (Cursor.FetchOne errCursor).self.statement.wasReset = false ∧
    (Cursor.FetchOne errCursor).self.result = true := by
  decide

/-- Witness for C4 at an exhausted cursor. -/
theorem fetchOne_exhausted_usage_error_witness :
    (Cursor.FetchOne deadCursor).error = some (.driver "FetchOne: No results to fetch!") ∧
    (Cursor.FetchOne deadCursor).data = none ∧
    (Cursor.FetchOne deadCursor).calls = [] :=
  fetchOne_exhausted_usage_error deadCursor rfl

/-- Witness for C5 (amended): `FetchMany(5)` against a result with exactly 3
rows returns the 3 rows and no error, and so does `FetchAll`. -/
theorem fetchMany_fetchAll_partial_success_witness :
    (Cursor.FetchMany rows3Cursor 5).map FetchManyRes.data =
      some (some [["r1"], ["r2"], ["r3"]]) ∧
    (Cursor.FetchMany rows3Cursor 5).map FetchManyRes.error = some none ∧
    (Cursor.FetchAll rows3Cursor).data = some [["r1"], ["r2"], ["r3"]] ∧
    (Cursor.FetchAll rows3Cursor).error = none := by
  have hall : (fetchAllLoop rows3Cursor).1 = [["r1"], ["r2"], ["r3"]] := by
    rw [fetchAllLoop_ok rows3Cursor rfl,
        show (Cursor.FetchOne rows3Cursor).self = rows3CursorB from rfl,
        fetchAllLoop_ok rows3CursorB rfl,
        show (Cursor.FetchOne rows3CursorB).self = rows3CursorC from rfl,
        fetchAllLoop_ok rows3CursorC rfl,
        show (Cursor.FetchOne rows3CursorC).self = rows3CursorD from rfl,
        fetchAllLoop_err rows3CursorD (.driver "FetchOne: No results to fetch!") rfl]
    rfl
  have h := fetchMany_fetchAll_partial_success rows3Cursor 5 (by norm_num)
  obtain ⟨⟨res, hres, hpos, _⟩, hall1, _⟩ := h
  have htake : (fetchAllLoop rows3Cursor).1.take (Int.toNat 5) = [["r1"], ["r2"], ["r3"]] := by
    rw [hall]
    rfl
  obtain ⟨hdata, herr⟩ := hpos (by rw [htake]; simp)
  have hA := hall1 (by rw [hall]; simp)
  refine ⟨?_, ?_, ?_, ?_⟩
  · rw [hres]
    simp [hdata, hall]
  · rw [hres]
    simp [herr]
  · rw [hA.1, hall]
  · exact hA.2

/-- Witness for C6: two declared slots, one supplied parameter. -/
theorem executeClassic_param_mismatch_witness :
    Connection.ExecuteClassic ⟨0, ""⟩ twoSlotStmt ["x"] =
      ⟨none, some (.driver "Execute: Number of parameters doesn't match!"), twoSlotStmt,
        ⟨0, ""⟩, [.bindParameterCount]⟩ ∧
    Call.step ∉ (Connection.ExecuteClassic ⟨0, ""⟩ twoSlotStmt ["x"]).calls := by
  have h := executeClassic_param_mismatch ⟨0, ""⟩ twoSlotStmt ["x"] (by decide)
  exact ⟨h.1, h.2.2⟩

/-- Witness for C8 at an open that fails with code 14 but yields a handle. -/
theorem open_failure_cleanup_witness :
    (openConnection envOpenFail "test.db" 0 none).1 = none ∧
    (openConnection envOpenFail "test.db" 0 none).2.1 =
      some (Connection.error ⟨14, "unable to open database file"⟩) ∧
    OpenCall.close ∈ (openConnection envOpenFail "test.db" 0 none).2.2 := by
  have h := (open_failure_cleanup envOpenFail "test.db" 0 none).1 (by decide) rfl
  exact h

/-- Witness for C9 at extended code 515 (= 0x203): basic code 3. -/
theorem connection_error_code_mask_witness :
    (3 : Int) = Int.land 515 0xff ∧ (515 : Int) = (515 : Int) ∧
    "database is locked" = "database is locked" := by
  have h := connection_error_code_mask ⟨515, "database is locked"⟩ 3 515 "database is locked"
    (by decide)
  exact ⟨h.1, rfl, rfl⟩

/-- Witness for C10 at live cursors over zero-column statements. -/
theorem fetch_no_columns_guard_witness :
    (Cursor.FetchOne noColsCursor).error = some (.driver "FetchOne: No columns in result!") ∧
    (Cursor.FetchOne noColsCursor).data = none ∧
    Call.step ∉ (Cursor.FetchOne noColsCursor).calls ∧
    (ClassicResultSet.Fetch noColsRSet).error = some (.driver "Fetch: No columns in result!") ∧
    Call.step ∉ (ClassicResultSet.Fetch noColsRSet).calls := by
  have h := fetch_no_columns_guard noColsCursor noColsRSet rfl (by decide) rfl (by decide)
  exact ⟨h.1, h.2.1, h.2.2.1, h.2.2.2.2.2.2.1, h.2.2.2.2.2.2.2.2⟩
